import Mathlib

/-!
Shallow embedding of the capi2argo cluster operator's reconciliation core
(`controllers/capi2argo_reconciler.go`).  Go `map[string]string` and
`map[string][]byte` values are modelled as association lists with a
first-match lookup; a missing key yields the empty string, mirroring Go's
zero value (and `bytes.Equal(nil, []byte(""))` being true).  Byte slices
are modelled as `String` (UTF-8 is injective, and every payload the code
compares comes from a `[]byte(string)` conversion).
-/

/-- A qualified object identifier: namespace plus name. -/
structure NamespacedName where
  ns : String
  name : String
deriving DecidableEq

/-- The fields of a Kubernetes Secret the reconciler reads or writes.
The object's own name/namespace live in the store key, not in the record. -/
structure Secret where
  typeTag : String
  labels : List (String × String)
  data : List (String × String)
deriving DecidableEq

/-- First-match association-list lookup, the model of Go map indexing. -/
def lookupA {α : Type} [DecidableEq α] {β : Type} : List (α × β) → α → Option β
  | [], _ => none
  | (k, v) :: t, a => if k = a then some v else lookupA t a

/-- Go map read with the zero value: a missing key yields `""`. -/
def lookupD (l : List (String × String)) (k : String) : String :=
  (lookupA l k).getD ""

/-- Go map assignment: replace the binding if the key is present, else add it. -/
def insertA {α : Type} [DecidableEq α] {β : Type} : List (α × β) → α → β → List (α × β)
  | [], k, v => [(k, v)]
  | (k2, v2) :: t, k, v => if k2 = k then (k, v) :: t else (k2, v2) :: insertA t k v

/-- The CAPI kubeconfig-secret suffix from the naming pattern
`<clusterName>-kubeconfig` (reconciler line 47). -/
def kubeconfigSuffix : String := "-kubeconfig"

/-- Go `strings.HasSuffix`, on the character data of the strings. -/
def strHasSuffix (s suf : String) : Bool :=
  decide (s.data.drop (s.data.length - suf.data.length) = suf.data)

/-- Go `strings.TrimSuffix` restricted to strings that do carry the suffix:
drop the suffix's length from the right. -/
def trimSuffix (s suf : String) : String :=
  ⟨s.data.take (s.data.length - suf.data.length)⟩

/-- The cluster name encoded in a credential-secret name: the part before
`-kubeconfig`. -/
def clusterNameOf (n : String) : String := trimSuffix n kubeconfigSuffix

/-- Modelled from the spec: `ValidateCapiNaming` is not under `src/`; §4.1 says
it returns true only if the name ends in the fixed credential suffix and the
cluster-name part before it is non-empty. -/
def ValidateCapiNaming (req : NamespacedName) : Bool :=
  strHasSuffix req.name kubeconfigSuffix &&
    decide (kubeconfigSuffix.data.length < req.name.data.length)

/-- Modelled from the spec: the deterministic naming rule of the
Credential-to-Registration Transformer (§3, §4.4; `NewArgoCluster` is not under
`src/`): the target name is derived purely from the credential name by
replacing the `-kubeconfig` suffix with a fixed `cluster-` marker in front of
the cluster name. -/
def argoClusterName (n : String) : String := "cluster-" ++ clusterNameOf n

/-- The CAPI secret type constant named in the reconciler's comment
(line 61): `cluster.x-k8s.io/secret`. -/
def capiSecretType : String := "cluster.x-k8s.io/secret"

/-- The managed-by label key checked by `ValidateObjectOwner` (line 180). -/
def ownedKey : String := "capi-to-argocd/owned"

/-- Errors a reconciliation pass can return to its caller (a non-`none`
`error` value in Go); the caller retries the pass on any of them. -/
inductive ReconcileError where
  | invalidRecordKind
  | missingDataField
  | malformedConfig
  | clusterNotFound
  | clusterError (msg : String)
deriving DecidableEq

/-- Modelled from the spec: `ValidateCapiSecret` is not under `src/`; §4.2 says
it fails with `InvalidRecordKind` when the type tag differs from the expected
constant and with `MissingDataField` when the connection-configuration field
(`value`, §8 scenario A) is absent.  `none` means the record validates. -/
def ValidateCapiSecret (s : Secret) : Option ReconcileError :=
  if s.typeTag ≠ capiSecretType then some .invalidRecordKind
  else if (lookupA s.data "value").isNone then some .missingDataField
  else none

/-- `ValidateObjectOwner` (reconciler lines 179-184): the object is owned by
the controller exactly when its `capi-to-argocd/owned` label reads `"true"`;
in Go a missing key (or a nil labels map) reads as `""`. -/
def ValidateObjectOwner (s : Secret) : Bool :=
  decide (lookupD s.labels ownedKey = "true")

/-- What `CapiCluster.Unmarshal` extracts from the kubeconfig payload: the
server endpoint and the serialized target configuration. -/
structure CapiClusterInfo where
  server : String
  config : String
deriving DecidableEq

/-- Modelled from the spec: `NewArgoCluster`/`ConvertToSecret` are not under
`src/`; §4.4 says the transformer populates `data.name` with the cluster name
(credential-name part before the suffix), `data.server` with the endpoint from
the parsed configuration, `data.config` with the serialized configuration, and
sets the managed-by label (the `capi-to-argocd/owned = "true"` marker that
`ValidateObjectOwner` in `src/` checks). -/
def mkArgoSecret (credName : String) (info : CapiClusterInfo) : Secret :=
  { typeTag := "Opaque"
  , labels := [(ownedKey, "true")]
  , data := [("name", clusterNameOf credName),
             ("server", info.server),
             ("config", info.config)] }

/-- Reconciler lines 93-96: copy the cluster's topology class into the target
labels when the resolved cluster has a topology, else leave them unchanged. -/
def withClassLabel (s : Secret) : Option String → Secret
  | some cls => { s with labels := insertA s.labels "class" cls }
  | none => s

/-- The target registry key (reconciler's `argoCluster.NamespacedName`): the
fixed Argo namespace plus the transformed name. -/
def argoKeyOf (argoNs : String) (req : NamespacedName) : NamespacedName :=
  ⟨argoNs, argoClusterName req.name⟩

/-- Result of `util.GetClusterFromMetadata` (line 69), the Cluster Metadata
Resolver: a cluster with an optional topology class, or a failure. -/
inductive ResolverResult where
  | found (topologyClass : Option String)
  | notFound
  | resolveError (msg : String)
deriving DecidableEq

/-- One comparison of the sequence at lines 141-154: if the stored byte
payload under `k` differs from the transformed value `v`, assign it and raise
the `changed` flag; otherwise leave the map untouched. -/
def diffStep (d : List (String × String)) (k v : String) :
    List (String × String) × Bool :=
  if lookupD d k = v then (d, false) else (insertA d k v, true)

/-- The data map after the three sequential field comparisons. -/
def diffData (d : List (String × String)) (cn sv cf : String) :
    List (String × String) :=
  (diffStep (diffStep (diffStep d "name" cn).1 "server" sv).1 "config" cf).1

/-- The `changed` flag after the three sequential field comparisons. -/
def diffChanged (d : List (String × String)) (cn sv cf : String) : Bool :=
  (diffStep d "name" cn).2 ||
    ((diffStep (diffStep d "name" cn).1 "server" sv).2 ||
      (diffStep (diffStep (diffStep d "name" cn).1 "server" sv).1 "config" cf).2)

/-- The object store visible to one pass: keyed Secrets. -/
def Store : Type := List (NamespacedName × Secret)

/-- Terminal outcome of one pass; `failed e` models returning a non-nil
error to controller-runtime (which then requeues), every other outcome
models `return ctrl.Result{}, nil`. -/
inductive Outcome where
  | skipped
  | created
  | updated
  | inSync
  | failed (e : ReconcileError)
deriving DecidableEq

/-- Whether the outcome reports a non-nil error to the caller. -/
def Outcome.isErr : Outcome → Bool
  | .failed _ => true
  | _ => false

/-- A store mutation issued by the pass. -/
inductive WriteOp where
  | create (key : NamespacedName) (s : Secret)
  | update (key : NamespacedName) (s : Secret)
deriving DecidableEq

/-- What one reconciliation pass returns and does: its terminal outcome and
the store write it issued (the pass issues at most one). -/
structure PassResult where
  outcome : Outcome
  write : Option WriteOp
deriving DecidableEq

/-- Effect of the issued write on the store. -/
def applyWrite (st : Store) : Option WriteOp → Store
  | none => st
  | some (.create k s) => insertA st k s
  | some (.update k s) => insertA st k s

/-- `Capi2Argo.Reconcile` (reconciler lines 42-171).  External collaborators
are explicit arguments: `argoNs` the target registry namespace, `parse` the
kubeconfig parser behind `CapiCluster.Unmarshal`, `resolver` the outcome of
`util.GetClusterFromMetadata`, and `st` the object store.  Stage by stage:
naming gate (line 48), source fetch with `IgnoreNotFound` (lines 52-57), type
validation returning its error (lines 62-66), cluster resolution propagating
every failure (lines 69-72), unmarshal (lines 76-80), transform and class
label (lines 83-96), existence check (lines 103-113), and the create /
ownership-guard / diff-and-apply switch (lines 121-167). -/
def reconcile (argoNs : String) (parse : String → Option CapiClusterInfo)
    (resolver : ResolverResult) (req : NamespacedName) (st : Store) :
    PassResult :=
  if ValidateCapiNaming req then
    match lookupA st req with
    | none => ⟨.skipped, none⟩
    | some capiSecret =>
      match ValidateCapiSecret capiSecret with
      | some e => ⟨.failed e, none⟩
      | none =>
        match resolver with
        | .notFound => ⟨.failed .clusterNotFound, none⟩
        | .resolveError m => ⟨.failed (.clusterError m), none⟩
        | .found topo =>
          match parse (lookupD capiSecret.data "value") with
          | none => ⟨.failed .malformedConfig, none⟩
          | some info =>
            let argoSecret := withClassLabel (mkArgoSecret req.name info) topo
            match lookupA st (argoKeyOf argoNs req) with
            | none => ⟨.created, some (.create (argoKeyOf argoNs req) argoSecret)⟩
            | some existing =>
              if ValidateObjectOwner existing then
                if diffChanged existing.data (clusterNameOf req.name)
                    info.server info.config then
                  ⟨.updated, some (.update (argoKeyOf argoNs req)
                    { existing with
                        data := diffData existing.data (clusterNameOf req.name)
                          info.server info.config })⟩
                else ⟨.inSync, none⟩
              else ⟨.skipped, none⟩
  else ⟨.skipped, none⟩

/-- A parser accepting any payload, reporting the scenario server endpoint. -/
def demoParse : String → Option CapiClusterInfo :=
  fun s => some ⟨"https://1.2.3.4:6443", s⟩

/-- The scenario request: credential record `demo-kubeconfig`. -/
def demoReq : NamespacedName := ⟨"default", "demo-kubeconfig"⟩

/-- The scenario credential record, with the expected CAPI type tag. -/
def demoCapi : Secret := ⟨"cluster.x-k8s.io/secret", [], [("value", "CFG")]⟩

/-- The parsed connection configuration of the scenario record. -/
def demoInfo : CapiClusterInfo := ⟨"https://1.2.3.4:6443", "CFG"⟩

/-- Scenario C's existing target record: owned, server out of date, plus an
extra data key that an update must not touch. -/
def staleArgo : Secret :=
  ⟨"Opaque", [("capi-to-argocd/owned", "true")],
    [("name", "demo"), ("server", "https://9.9.9.9:6443"), ("config", "CFG"),
     ("extra", "keep")]⟩

/-- Scenario C's store: the credential record plus the stale target record. -/
def scenarioCStore : Store :=
  [(demoReq, demoCapi), (⟨"argocd", "cluster-demo"⟩, staleArgo)]

/-- Scenario A's store: the credential record only, no target record. -/
def scenarioAStore : Store := [(demoReq, demoCapi)]

/-! ### Lemmas about the embedding -/

theorem lookupA_insertA {α : Type} [DecidableEq α] {β : Type}
    (l : List (α × β)) (k : α) (v : β) (k2 : α) :
    lookupA (insertA l k v) k2 = if k = k2 then some v else lookupA l k2 := by
  induction l with
  | nil => simp [insertA, lookupA]
  | cons p t ih =>
    obtain ⟨a, b⟩ := p
    by_cases hak : a = k
    · subst hak
      by_cases hk2 : a = k2 <;> simp [insertA, lookupA, hk2]
    · by_cases hak2 : a = k2
      · subst hak2
        have : ¬ k = a := fun h => hak h.symm
        simp [insertA, lookupA, hak, this]
      · simp [insertA, lookupA, hak, hak2, ih]

theorem lookupA_insertA_self {α : Type} [DecidableEq α] {β : Type}
    (l : List (α × β)) (k : α) (v : β) :
    lookupA (insertA l k v) k = some v := by
  simp [lookupA_insertA]

theorem lookupA_insertA_ne {α : Type} [DecidableEq α] {β : Type}
    (l : List (α × β)) (k : α) (v : β) (k2 : α) (h : k ≠ k2) :
    lookupA (insertA l k v) k2 = lookupA l k2 := by
  simp [lookupA_insertA, h]

theorem data_of_hasSuffix (s suf : String) (h : strHasSuffix s suf = true) :
    s.data = (trimSuffix s suf).data ++ suf.data := by
  have hd : s.data.drop (s.data.length - suf.data.length) = suf.data := by
    simpa [strHasSuffix] using h
  calc s.data
      = s.data.take (s.data.length - suf.data.length) ++
          s.data.drop (s.data.length - suf.data.length) :=
        (List.take_append_drop _ _).symm
    _ = (trimSuffix s suf).data ++ suf.data := by rw [hd]; rfl

theorem argoClusterName_injOn (n1 n2 : String)
    (h1 : strHasSuffix n1 kubeconfigSuffix = true)
    (h2 : strHasSuffix n2 kubeconfigSuffix = true)
    (h : argoClusterName n1 = argoClusterName n2) : n1 = n2 := by
  have hdata : ("cluster-" : String).data ++ (clusterNameOf n1).data =
      ("cluster-" : String).data ++ (clusterNameOf n2).data := by
    have := congrArg String.data h
    simpa [argoClusterName, String.data_append] using this
  have htrim : (clusterNameOf n1).data = (clusterNameOf n2).data :=
    List.append_cancel_left hdata
  have hn : n1.data = n2.data := by
    rw [data_of_hasSuffix n1 kubeconfigSuffix h1, data_of_hasSuffix n2 kubeconfigSuffix h2]
    simp only [clusterNameOf] at htrim
    rw [htrim]
  cases n1; cases n2; exact congrArg String.mk hn

theorem valid_hasSuffix (req : NamespacedName) (h : ValidateCapiNaming req = true) :
    strHasSuffix req.name kubeconfigSuffix = true := by
  simp [ValidateCapiNaming] at h
  exact h.1

theorem valid_length (req : NamespacedName) (h : ValidateCapiNaming req = true) :
    kubeconfigSuffix.data.length < req.name.data.length := by
  simp [ValidateCapiNaming] at h
  exact h.2

theorem argoClusterName_ne_self (n : String)
    (hlen : kubeconfigSuffix.data.length < n.data.length) : argoClusterName n ≠ n := by
  intro heq
  have hlen2 := congrArg (fun s : String => s.data.length) heq
  simp only [argoClusterName, String.data_append, List.length_append,
    clusterNameOf, trimSuffix, List.length_take] at hlen2
  have hsl : kubeconfigSuffix.data.length = 11 := by decide
  have hcl : ("cluster-" : String).data.length = 8 := by decide
  rw [hsl] at hlen hlen2
  rw [hcl] at hlen2
  omega

theorem diffStep_snd_false_iff (d : List (String × String)) (k v : String) :
    (diffStep d k v).2 = false ↔ lookupD d k = v := by
  unfold diffStep
  split <;> simp_all

theorem diffStep_fst_of_eq (d : List (String × String)) (k v : String)
    (h : lookupD d k = v) : (diffStep d k v).1 = d := by
  simp [diffStep, h]

theorem lookupD_diffStep_self (d : List (String × String)) (k v : String) :
    lookupD (diffStep d k v).1 k = v := by
  unfold diffStep
  split
  · assumption
  · simp [lookupD, lookupA_insertA_self]

theorem lookupA_diffStep_ne (d : List (String × String)) (k v k2 : String)
    (h : k ≠ k2) : lookupA (diffStep d k v).1 k2 = lookupA d k2 := by
  unfold diffStep
  split
  · rfl
  · exact lookupA_insertA_ne d k v k2 h

theorem lookupD_diffStep_ne (d : List (String × String)) (k v k2 : String)
    (h : k ≠ k2) : lookupD (diffStep d k v).1 k2 = lookupD d k2 := by
  simp [lookupD, lookupA_diffStep_ne d k v k2 h]

theorem diffChanged_false_iff (d : List (String × String)) (cn sv cf : String) :
    diffChanged d cn sv cf = false ↔
      lookupD d "name" = cn ∧ lookupD d "server" = sv ∧ lookupD d "config" = cf := by
  have hns : ("name" : String) ≠ "server" := by decide
  have hnc : ("name" : String) ≠ "config" := by decide
  have hsc : ("server" : String) ≠ "config" := by decide
  unfold diffChanged
  rw [Bool.or_eq_false_iff, Bool.or_eq_false_iff]
  rw [diffStep_snd_false_iff, diffStep_snd_false_iff, diffStep_snd_false_iff]
  rw [lookupD_diffStep_ne _ _ _ _ hns]
  rw [lookupD_diffStep_ne _ _ _ _ hsc, lookupD_diffStep_ne _ _ _ _ hnc]

theorem diffData_of_unchanged (d : List (String × String)) (cn sv cf : String)
    (h1 : lookupD d "name" = cn) (h2 : lookupD d "server" = sv)
    (h3 : lookupD d "config" = cf) : diffData d cn sv cf = d := by
  have hns : ("name" : String) ≠ "server" := by decide
  have hnc : ("name" : String) ≠ "config" := by decide
  unfold diffData
  rw [diffStep_fst_of_eq d "name" cn h1]
  rw [diffStep_fst_of_eq d "server" sv h2]
  rw [diffStep_fst_of_eq d "config" cf h3]

theorem lookupD_diffData_name (d : List (String × String)) (cn sv cf : String) :
    lookupD (diffData d cn sv cf) "name" = cn := by
  have hns : ("server" : String) ≠ "name" := by decide
  have hnc : ("config" : String) ≠ "name" := by decide
  unfold diffData
  rw [lookupD_diffStep_ne _ _ _ _ hnc, lookupD_diffStep_ne _ _ _ _ hns,
    lookupD_diffStep_self]

theorem lookupD_diffData_server (d : List (String × String)) (cn sv cf : String) :
    lookupD (diffData d cn sv cf) "server" = sv := by
  have hsc : ("config" : String) ≠ "server" := by decide
  unfold diffData
  rw [lookupD_diffStep_ne _ _ _ _ hsc, lookupD_diffStep_self]

theorem lookupD_diffData_config (d : List (String × String)) (cn sv cf : String) :
    lookupD (diffData d cn sv cf) "config" = cf := by
  unfold diffData
  rw [lookupD_diffStep_self]

theorem lookupA_diffData_other (d : List (String × String)) (cn sv cf k : String)
    (h1 : k ≠ "name") (h2 : k ≠ "server") (h3 : k ≠ "config") :
    lookupA (diffData d cn sv cf) k = lookupA d k := by
  unfold diffData
  rw [lookupA_diffStep_ne _ _ _ _ (Ne.symm h3), lookupA_diffStep_ne _ _ _ _ (Ne.symm h2),
    lookupA_diffStep_ne _ _ _ _ (Ne.symm h1)]

theorem lookupA_diffData_name_of_eq (d : List (String × String)) (cn sv cf : String)
    (h : lookupD d "name" = cn) :
    lookupA (diffData d cn sv cf) "name" = lookupA d "name" := by
  have hns : ("server" : String) ≠ "name" := by decide
  have hnc : ("config" : String) ≠ "name" := by decide
  unfold diffData
  rw [lookupA_diffStep_ne _ _ _ _ hnc, lookupA_diffStep_ne _ _ _ _ hns,
    diffStep_fst_of_eq d "name" cn h]

theorem lookupA_diffData_server_of_eq (d : List (String × String)) (cn sv cf : String)
    (h : lookupD d "server" = sv) :
    lookupA (diffData d cn sv cf) "server" = lookupA d "server" := by
  have hns : ("name" : String) ≠ "server" := by decide
  have hsc : ("config" : String) ≠ "server" := by decide
  unfold diffData
  rw [lookupA_diffStep_ne _ _ _ _ hsc]
  rw [diffStep_fst_of_eq _ "server" sv (by rw [lookupD_diffStep_ne _ _ _ _ hns]; exact h)]
  rw [lookupA_diffStep_ne _ _ _ _ hns]

theorem lookupA_diffData_config_of_eq (d : List (String × String)) (cn sv cf : String)
    (h : lookupD d "config" = cf) :
    lookupA (diffData d cn sv cf) "config" = lookupA d "config" := by
  have hnc : ("name" : String) ≠ "config" := by decide
  have hsc : ("server" : String) ≠ "config" := by decide
  unfold diffData
  rw [diffStep_fst_of_eq _ "config" cf
    (by rw [lookupD_diffStep_ne _ _ _ _ hsc, lookupD_diffStep_ne _ _ _ _ hnc]; exact h)]
  rw [lookupA_diffStep_ne _ _ _ _ hsc, lookupA_diffStep_ne _ _ _ _ hnc]

theorem withClassLabel_data (s : Secret) (topo : Option String) :
    (withClassLabel s topo).data = s.data := by
  cases topo <;> rfl

theorem withClassLabel_typeTag (s : Secret) (topo : Option String) :
    (withClassLabel s topo).typeTag = s.typeTag := by
  cases topo <;> rfl

theorem mkArgoSecret_owned (n : String) (info : CapiClusterInfo)
    (topo : Option String) :
    ValidateObjectOwner (withClassLabel (mkArgoSecret n info) topo) = true := by
  cases topo with
  | none => simp [ValidateObjectOwner, mkArgoSecret, lookupD, lookupA]
  | some cls =>
    have hck : ("class" : String) ≠ ownedKey := by decide
    simp only [ValidateObjectOwner, withClassLabel, lookupD, mkArgoSecret]
    apply decide_eq_true
    rw [lookupA_insertA_ne _ _ _ _ hck]
    simp [lookupA]

theorem mkArgoSecret_data_name (n : String) (info : CapiClusterInfo) :
    lookupD (mkArgoSecret n info).data "name" = clusterNameOf n := by
  simp [mkArgoSecret, lookupD, lookupA]

theorem mkArgoSecret_data_server (n : String) (info : CapiClusterInfo) :
    lookupD (mkArgoSecret n info).data "server" = info.server := by
  simp [mkArgoSecret, lookupD, lookupA]

theorem mkArgoSecret_data_config (n : String) (info : CapiClusterInfo) :
    lookupD (mkArgoSecret n info).data "config" = info.config := by
  simp [mkArgoSecret, lookupD, lookupA]

theorem argoKeyOf_ne_req (argoNs : String) (req : NamespacedName)
    (h : ValidateCapiNaming req = true) : argoKeyOf argoNs req ≠ req := by
  intro heq
  have hname : argoClusterName req.name = req.name := congrArg NamespacedName.name heq
  exact argoClusterName_ne_self req.name (valid_length req h) hname

/-! ### The claims -/

/-- C1.  Ownership safety: when a pass finds an existing target record whose
labels fail the managed-by check, it ends as a no-op success (`skipped`, a nil
error), issues no write, and the store is unchanged, whatever the transformed
record looks like. -/
theorem claim1_ownership_safety (argoNs : String)
    (parse : String → Option CapiClusterInfo) (topo : Option String)
    (req : NamespacedName) (st : Store) (cs e : Secret) (info : CapiClusterInfo)
    (h1 : ValidateCapiNaming req = true)
    (h2 : lookupA st req = some cs)
    (h3 : ValidateCapiSecret cs = none)
    (h4 : parse (lookupD cs.data "value") = some info)
    (h5 : lookupA st (argoKeyOf argoNs req) = some e)
    (h6 : ValidateObjectOwner e = false) :
    reconcile argoNs parse (.found topo) req st = ⟨.skipped, none⟩ ∧
    applyWrite st (reconcile argoNs parse (.found topo) req st).write = st := by
  have hr : reconcile argoNs parse (.found topo) req st = ⟨.skipped, none⟩ := by
    simp only [reconcile, h1, h2, h3, h4, h5, h6]
    simp
  refine ⟨hr, ?_⟩
  rw [hr]
  rfl

/-- Witness for C1 at scenario B of the spec: the existing target record has
no ownership label, so the pass skips and the store is untouched. -/
theorem claim1_witness :
    reconcile "argocd" (fun s => some ⟨"https://1.2.3.4:6443", s⟩) (.found none)
      ⟨"default", "demo-kubeconfig"⟩
      [(⟨"default", "demo-kubeconfig"⟩,
        ⟨"cluster.x-k8s.io/secret", [], [("value", "CFG")]⟩),
       (⟨"argocd", "cluster-demo"⟩, ⟨"Opaque", [], [("server", "mine")]⟩)] =
      ⟨.skipped, none⟩ ∧
    applyWrite
      [(⟨"default", "demo-kubeconfig"⟩,
        ⟨"cluster.x-k8s.io/secret", [], [("value", "CFG")]⟩),
       (⟨"argocd", "cluster-demo"⟩, ⟨"Opaque", [], [("server", "mine")]⟩)]
      (reconcile "argocd" (fun s => some ⟨"https://1.2.3.4:6443", s⟩) (.found none)
        ⟨"default", "demo-kubeconfig"⟩
        [(⟨"default", "demo-kubeconfig"⟩,
          ⟨"cluster.x-k8s.io/secret", [], [("value", "CFG")]⟩),
         (⟨"argocd", "cluster-demo"⟩, ⟨"Opaque", [], [("server", "mine")]⟩)]).write =
      [(⟨"default", "demo-kubeconfig"⟩,
        ⟨"cluster.x-k8s.io/secret", [], [("value", "CFG")]⟩),
       (⟨"argocd", "cluster-demo"⟩, ⟨"Opaque", [], [("server", "mine")]⟩)] :=
  claim1_ownership_safety "argocd" (fun s => some ⟨"https://1.2.3.4:6443", s⟩) none
    ⟨"default", "demo-kubeconfig"⟩
    [(⟨"default", "demo-kubeconfig"⟩,
      ⟨"cluster.x-k8s.io/secret", [], [("value", "CFG")]⟩),
     (⟨"argocd", "cluster-demo"⟩, ⟨"Opaque", [], [("server", "mine")]⟩)]
    ⟨"cluster.x-k8s.io/secret", [], [("value", "CFG")]⟩
    ⟨"Opaque", [], [("server", "mine")]⟩
    ⟨"https://1.2.3.4:6443", "CFG"⟩
    (by decide) (by decide) (by decide) (by decide) (by decide) (by decide)

/-- C6.  A request whose name fails the CAPI naming convention is skipped with
a nil error, no write, and without consulting the store at all: the result is
the same for every store, in particular the empty one. -/
theorem claim6_naming_mismatch_skips (argoNs : String)
    (parse : String → Option CapiClusterInfo) (resolver : ResolverResult)
    (req : NamespacedName) (h : ValidateCapiNaming req = false) :
    ∀ st : Store,
      reconcile argoNs parse resolver req st = ⟨.skipped, none⟩ ∧
      (reconcile argoNs parse resolver req st).outcome.isErr = false ∧
      reconcile argoNs parse resolver req st = reconcile argoNs parse resolver req [] := by
  intro st
  have hr : ∀ st2 : Store, reconcile argoNs parse resolver req st2 = ⟨.skipped, none⟩ := by
    intro st2
    simp [reconcile, h]
  exact ⟨hr st, by rw [hr st]; rfl, by rw [hr st, hr []]⟩

/-- Witness for C6 at scenario D of the spec: the name `foo-bar` carries no
`-kubeconfig` suffix, so the pass skips even on a store that binds that key,
and behaves exactly as on the empty store (no fetch happens). -/
theorem claim6_witness :
    reconcile "argocd" (fun s => some ⟨"https://1.2.3.4:6443", s⟩) (.found none)
      ⟨"default", "foo-bar"⟩
      [(⟨"default", "foo-bar"⟩, ⟨"cluster.x-k8s.io/secret", [], [("value", "CFG")]⟩)] =
      ⟨.skipped, none⟩ ∧
    (reconcile "argocd" (fun s => some ⟨"https://1.2.3.4:6443", s⟩) (.found none)
      ⟨"default", "foo-bar"⟩
      [(⟨"default", "foo-bar"⟩, ⟨"cluster.x-k8s.io/secret", [], [("value", "CFG")]⟩)]).outcome.isErr =
      false ∧
    reconcile "argocd" (fun s => some ⟨"https://1.2.3.4:6443", s⟩) (.found none)
      ⟨"default", "foo-bar"⟩
      [(⟨"default", "foo-bar"⟩, ⟨"cluster.x-k8s.io/secret", [], [("value", "CFG")]⟩)] =
      reconcile "argocd" (fun s => some ⟨"https://1.2.3.4:6443", s⟩) (.found none)
        ⟨"default", "foo-bar"⟩ [] :=
  claim6_naming_mismatch_skips "argocd" (fun s => some ⟨"https://1.2.3.4:6443", s⟩)
    (.found none) ⟨"default", "foo-bar"⟩ (by decide)
    [(⟨"default", "foo-bar"⟩, ⟨"cluster.x-k8s.io/secret", [], [("value", "CFG")]⟩)]

/-- C8.  When the source credential record itself is absent from the store
(`IgnoreNotFound`, reconciler lines 52-57), the pass returns success with no
write: the missing source is treated as a skip, not a retryable failure. -/
theorem claim8_missing_source_skips (argoNs : String)
    (parse : String → Option CapiClusterInfo) (resolver : ResolverResult)
    (req : NamespacedName) (st : Store)
    (h1 : ValidateCapiNaming req = true)
    (h2 : lookupA st req = none) :
    reconcile argoNs parse resolver req st = ⟨.skipped, none⟩ ∧
    (reconcile argoNs parse resolver req st).outcome.isErr = false := by
  have hr : reconcile argoNs parse resolver req st = ⟨.skipped, none⟩ := by
    simp [reconcile, h1, h2]
  exact ⟨hr, by rw [hr]; rfl⟩

/-- Witness for C8: a well-named request against an empty store skips. -/
theorem claim8_witness :
    reconcile "argocd" (fun s => some ⟨"https://1.2.3.4:6443", s⟩) (.found none)
      ⟨"default", "demo-kubeconfig"⟩ [] = ⟨.skipped, none⟩ ∧
    (reconcile "argocd" (fun s => some ⟨"https://1.2.3.4:6443", s⟩) (.found none)
      ⟨"default", "demo-kubeconfig"⟩ []).outcome.isErr = false :=
  claim8_missing_source_skips "argocd" (fun s => some ⟨"https://1.2.3.4:6443", s⟩)
    (.found none) ⟨"default", "demo-kubeconfig"⟩ [] (by decide) (by decide)

/-- C10.  The ownership guard accepts a record exactly when its labels bind
the key `capi-to-argocd/owned` to the exact string `"true"`; an absent labels
map, a missing key, or any other value (`"True"`, `"1"`, ...) is rejected. -/
theorem claim10_owner_guard_iff (s : Secret) :
    ValidateObjectOwner s = true ↔ lookupA s.labels ownedKey = some "true" := by
  unfold ValidateObjectOwner lookupD
  cases h : lookupA s.labels ownedKey with
  | none => simp
  | some v => simp

/-- C2.  What the code actually does on a type-tag mismatch: the validation
error is RETURNED from `Reconcile` (reconciler line 65, `return ctrl.Result{},
err`), so controller-runtime retries the pass — despite the adjacent log line
"Ignoring secret as it's missing proper CAPI type" and even though no store
write is issued.  Evaluated at a concrete credential record whose type tag is
`Opaque` instead of `cluster.x-k8s.io/secret`. -/
theorem claim2_type_mismatch_returns_error :
    reconcile "argocd" (fun s => some ⟨"https://1.2.3.4:6443", s⟩) (.found none)
      ⟨"default", "demo-kubeconfig"⟩
      [(⟨"default", "demo-kubeconfig"⟩, ⟨"Opaque", [], [("value", "CFG")]⟩)] =
      ⟨.failed .invalidRecordKind, none⟩ ∧
    (reconcile "argocd" (fun s => some ⟨"https://1.2.3.4:6443", s⟩) (.found none)
      ⟨"default", "demo-kubeconfig"⟩
      [(⟨"default", "demo-kubeconfig"⟩,
        ⟨"Opaque", [], [("value", "CFG")]⟩)]).outcome.isErr = true := by
  constructor
  · decide
  · decide

/-- C3 counterexample.  With every other stage valid and no existing target
record, a resolver `NotFound` makes the pass return a hard error and create
nothing — the claim instead demands that the pass proceed to create with the
class label omitted. -/
theorem claim3_counterexample :
    reconcile "argocd" (fun s => some ⟨"https://1.2.3.4:6443", s⟩) .notFound
      ⟨"default", "demo-kubeconfig"⟩
      [(⟨"default", "demo-kubeconfig"⟩,
        ⟨"cluster.x-k8s.io/secret", [], [("value", "CFG")]⟩)] =
      ⟨.failed .clusterNotFound, none⟩ ∧
    (reconcile "argocd" (fun s => some ⟨"https://1.2.3.4:6443", s⟩) .notFound
      ⟨"default", "demo-kubeconfig"⟩
      [(⟨"default", "demo-kubeconfig"⟩,
        ⟨"cluster.x-k8s.io/secret", [], [("value", "CFG")]⟩)]).outcome.isErr = true := by
  constructor
  · decide
  · decide

/-- C3 amended.  Every resolver failure — `NotFound` included — is propagated
as a hard retryable error with no write (reconciler lines 69-72); the soft
path that omits the class label and proceeds to create/update is the one
where the owner cluster resolves but has no topology (lines 93-96). -/
theorem claim3_amended_resolver_failures_hard (argoNs : String)
    (parse : String → Option CapiClusterInfo) (req : NamespacedName)
    (st : Store) (cs : Secret) (info : CapiClusterInfo)
    (h1 : ValidateCapiNaming req = true)
    (h2 : lookupA st req = some cs)
    (h3 : ValidateCapiSecret cs = none) :
    reconcile argoNs parse .notFound req st = ⟨.failed .clusterNotFound, none⟩ ∧
    (∀ m, reconcile argoNs parse (.resolveError m) req st =
      ⟨.failed (.clusterError m), none⟩) ∧
    (parse (lookupD cs.data "value") = some info →
      lookupA st (argoKeyOf argoNs req) = none →
      reconcile argoNs parse (.found none) req st =
        ⟨.created, some (.create (argoKeyOf argoNs req) (mkArgoSecret req.name info))⟩ ∧
      lookupA (mkArgoSecret req.name info).labels "class" = none) := by
  refine ⟨?_, ?_, ?_⟩
  · simp [reconcile, h1, h2, h3]
  · intro m
    simp [reconcile, h1, h2, h3]
  · intro h4 h5
    constructor
    · simp only [reconcile, h1, h2, h3, h4, h5]
      simp [withClassLabel]
    · simp [mkArgoSecret, lookupA, ownedKey]

/-- Witness for the amended C3 at a concrete valid credential record. -/
theorem claim3_witness :
    reconcile "argocd" (fun s => some ⟨"https://1.2.3.4:6443", s⟩) .notFound
      ⟨"default", "demo-kubeconfig"⟩
      [(⟨"default", "demo-kubeconfig"⟩,
        ⟨"cluster.x-k8s.io/secret", [], [("value", "CFG")]⟩)] =
      ⟨.failed .clusterNotFound, none⟩ ∧
    (∀ m, reconcile "argocd" (fun s => some ⟨"https://1.2.3.4:6443", s⟩)
      (.resolveError m) ⟨"default", "demo-kubeconfig"⟩
      [(⟨"default", "demo-kubeconfig"⟩,
        ⟨"cluster.x-k8s.io/secret", [], [("value", "CFG")]⟩)] =
      ⟨.failed (.clusterError m), none⟩) ∧
    ((fun s => some (⟨"https://1.2.3.4:6443", s⟩ : CapiClusterInfo))
        (lookupD [("value", "CFG")] "value") =
        some ⟨"https://1.2.3.4:6443", "CFG"⟩ →
      lookupA
        [(⟨"default", "demo-kubeconfig"⟩,
          (⟨"cluster.x-k8s.io/secret", [], [("value", "CFG")]⟩ : Secret))]
        (argoKeyOf "argocd" ⟨"default", "demo-kubeconfig"⟩) = none →
      reconcile "argocd" (fun s => some ⟨"https://1.2.3.4:6443", s⟩) (.found none)
        ⟨"default", "demo-kubeconfig"⟩
        [(⟨"default", "demo-kubeconfig"⟩,
          ⟨"cluster.x-k8s.io/secret", [], [("value", "CFG")]⟩)] =
        ⟨.created, some (.create (argoKeyOf "argocd" ⟨"default", "demo-kubeconfig"⟩)
          (mkArgoSecret "demo-kubeconfig" ⟨"https://1.2.3.4:6443", "CFG"⟩))⟩ ∧
      lookupA (mkArgoSecret "demo-kubeconfig"
        ⟨"https://1.2.3.4:6443", "CFG"⟩).labels "class" = none) :=
  claim3_amended_resolver_failures_hard "argocd"
    (fun s => some ⟨"https://1.2.3.4:6443", s⟩) ⟨"default", "demo-kubeconfig"⟩
    [(⟨"default", "demo-kubeconfig"⟩,
      ⟨"cluster.x-k8s.io/secret", [], [("value", "CFG")]⟩)]
    ⟨"cluster.x-k8s.io/secret", [], [("value", "CFG")]⟩
    ⟨"https://1.2.3.4:6443", "CFG"⟩
    (by decide) (by decide) (by decide)

/-- C7.  Deterministic naming: the target identifier is a pure function of
the credential name (equal names give equal identifiers, for any namespace
configuration), and on names matching the CAPI convention the map is
injective — no two distinct credential names share a registration
identifier.  Both directions are packaged as an equivalence on names and on
full store keys. -/
theorem claim7_deterministic_naming (req1 req2 : NamespacedName)
    (h1 : ValidateCapiNaming req1 = true)
    (h2 : ValidateCapiNaming req2 = true) :
    (argoClusterName req1.name = argoClusterName req2.name ↔ req1.name = req2.name) ∧
    (∀ argoNs, argoKeyOf argoNs req1 = argoKeyOf argoNs req2 ↔ req1.name = req2.name) := by
  have hiff : argoClusterName req1.name = argoClusterName req2.name ↔
      req1.name = req2.name := by
    constructor
    · exact argoClusterName_injOn req1.name req2.name
        (valid_hasSuffix req1 h1) (valid_hasSuffix req2 h2)
    · intro h
      rw [h]
  refine ⟨hiff, fun argoNs => ?_⟩
  constructor
  · intro h
    exact hiff.mp (congrArg NamespacedName.name h)
  · intro h
    simp [argoKeyOf, h]

/-- Witness for C7: two distinct well-formed credential names map to
distinct registration identifiers, and equal names to the same one. -/
theorem claim7_witness :
    (argoClusterName "demo-kubeconfig" = argoClusterName "prod-kubeconfig" ↔
      "demo-kubeconfig" = "prod-kubeconfig") ∧
    (∀ argoNs, argoKeyOf argoNs ⟨"default", "demo-kubeconfig"⟩ =
        argoKeyOf argoNs ⟨"default", "prod-kubeconfig"⟩ ↔
      "demo-kubeconfig" = "prod-kubeconfig") :=
  claim7_deterministic_naming ⟨"default", "demo-kubeconfig"⟩
    ⟨"default", "prod-kubeconfig"⟩ (by decide) (by decide)

/-- C4.  Diff-and-apply on an existing owned record: the pass ends `inSync`
with no write exactly when the three data fields `name`, `server`, `config`
already equal the transformed values, and otherwise ends `updated`, writing
the existing record with only those data fields replaced — its labels and
type are carried over unchanged, fields that already agreed keep their exact
stored binding, and every other data key is untouched. -/
theorem claim4_diff_and_apply (argoNs : String)
    (parse : String → Option CapiClusterInfo) (topo : Option String)
    (req : NamespacedName) (st : Store) (cs e : Secret) (info : CapiClusterInfo)
    (r : PassResult)
    (hr : r = reconcile argoNs parse (.found topo) req st)
    (h1 : ValidateCapiNaming req = true)
    (h2 : lookupA st req = some cs)
    (h3 : ValidateCapiSecret cs = none)
    (h4 : parse (lookupD cs.data "value") = some info)
    (h5 : lookupA st (argoKeyOf argoNs req) = some e)
    (h6 : ValidateObjectOwner e = true) :
    (r.outcome = .inSync ∨ r.outcome = .updated) ∧
    (r.outcome = .inSync ↔
      (lookupD e.data "name" = clusterNameOf req.name ∧
       lookupD e.data "server" = info.server ∧
       lookupD e.data "config" = info.config)) ∧
    (r.outcome = .inSync → r.write = none) ∧
    (r.outcome = .updated →
      r.write = some (.update (argoKeyOf argoNs req)
        ⟨e.typeTag, e.labels,
          diffData e.data (clusterNameOf req.name) info.server info.config⟩)) ∧
    lookupD (diffData e.data (clusterNameOf req.name) info.server info.config)
      "name" = clusterNameOf req.name ∧
    lookupD (diffData e.data (clusterNameOf req.name) info.server info.config)
      "server" = info.server ∧
    lookupD (diffData e.data (clusterNameOf req.name) info.server info.config)
      "config" = info.config ∧
    (∀ k, k ≠ "name" → k ≠ "server" → k ≠ "config" →
      lookupA (diffData e.data (clusterNameOf req.name) info.server info.config) k =
        lookupA e.data k) ∧
    (lookupD e.data "name" = clusterNameOf req.name →
      lookupA (diffData e.data (clusterNameOf req.name) info.server info.config)
        "name" = lookupA e.data "name") ∧
    (lookupD e.data "server" = info.server →
      lookupA (diffData e.data (clusterNameOf req.name) info.server info.config)
        "server" = lookupA e.data "server") ∧
    (lookupD e.data "config" = info.config →
      lookupA (diffData e.data (clusterNameOf req.name) info.server info.config)
        "config" = lookupA e.data "config") := by
  have hred : reconcile argoNs parse (.found topo) req st =
      if diffChanged e.data (clusterNameOf req.name) info.server info.config then
        ⟨.updated, some (.update (argoKeyOf argoNs req)
          ⟨e.typeTag, e.labels,
            diffData e.data (clusterNameOf req.name) info.server info.config⟩)⟩
      else ⟨.inSync, none⟩ := by
    simp only [reconcile, h1, h2, h3, h4, h5, h6]
    simp
  subst hr
  by_cases hch : diffChanged e.data (clusterNameOf req.name) info.server info.config = true
  · rw [hred, if_pos hch]
    have hne : ¬ (lookupD e.data "name" = clusterNameOf req.name ∧
        lookupD e.data "server" = info.server ∧
        lookupD e.data "config" = info.config) := by
      intro hall
      rw [(diffChanged_false_iff e.data (clusterNameOf req.name)
        info.server info.config).mpr hall] at hch
      exact Bool.false_ne_true hch
    refine ⟨Or.inr rfl, ?_, ?_, fun _ => rfl,
      lookupD_diffData_name _ _ _ _, lookupD_diffData_server _ _ _ _,
      lookupD_diffData_config _ _ _ _, lookupA_diffData_other _ _ _ _,
      lookupA_diffData_name_of_eq _ _ _ _, lookupA_diffData_server_of_eq _ _ _ _,
      lookupA_diffData_config_of_eq _ _ _ _⟩
    · constructor
      · intro h
        exact absurd h (by simp)
      · intro h
        exact absurd h hne
    · intro h
      exact absurd h (by simp)
  · have hch2 : diffChanged e.data (clusterNameOf req.name) info.server info.config
        = false := by
      simpa using hch
    rw [hred, if_neg (by simp [hch2])]
    refine ⟨Or.inl rfl,
      iff_of_true rfl ((diffChanged_false_iff _ _ _ _).mp hch2),
      fun _ => rfl, ?_,
      lookupD_diffData_name _ _ _ _, lookupD_diffData_server _ _ _ _,
      lookupD_diffData_config _ _ _ _, lookupA_diffData_other _ _ _ _,
      lookupA_diffData_name_of_eq _ _ _ _, lookupA_diffData_server_of_eq _ _ _ _,
      lookupA_diffData_config_of_eq _ _ _ _⟩
    intro h
    exact absurd h (by simp)

/-- Witness for C4 at scenario C of the spec: the stale existing record is
owned and differs in `server` only, so the owned diff path applies. -/
theorem claim4_witness :
    ((reconcile "argocd" demoParse (.found none) demoReq scenarioCStore).outcome =
        .inSync ∨
     (reconcile "argocd" demoParse (.found none) demoReq scenarioCStore).outcome =
        .updated) ∧
    ((reconcile "argocd" demoParse (.found none) demoReq scenarioCStore).outcome =
        .inSync ↔
      (lookupD staleArgo.data "name" = clusterNameOf demoReq.name ∧
       lookupD staleArgo.data "server" = demoInfo.server ∧
       lookupD staleArgo.data "config" = demoInfo.config)) :=
  ⟨(claim4_diff_and_apply "argocd" demoParse none demoReq scenarioCStore demoCapi
      staleArgo demoInfo _ rfl (by decide) (by decide) (by decide) (by decide)
      (by decide) (by decide)).1,
   (claim4_diff_and_apply "argocd" demoParse none demoReq scenarioCStore demoCapi
      staleArgo demoInfo _ rfl (by decide) (by decide) (by decide) (by decide)
      (by decide) (by decide)).2.1⟩

/-- C5.  Idempotence: with a valid credential record and no existing target
record, the first pass creates the transformed record verbatim, and a second
pass run on the resulting store — credential unchanged, nothing else mutated
in between — finds the record in sync and writes nothing.  In particular two
consecutive `created`/`updated` outcomes are impossible here. -/
theorem claim5_idempotence (argoNs : String)
    (parse : String → Option CapiClusterInfo) (topo : Option String)
    (req : NamespacedName) (st : Store) (cs : Secret) (info : CapiClusterInfo)
    (h1 : ValidateCapiNaming req = true)
    (h2 : lookupA st req = some cs)
    (h3 : ValidateCapiSecret cs = none)
    (h4 : parse (lookupD cs.data "value") = some info)
    (h5 : lookupA st (argoKeyOf argoNs req) = none) :
    reconcile argoNs parse (.found topo) req st =
      ⟨.created, some (.create (argoKeyOf argoNs req)
        (withClassLabel (mkArgoSecret req.name info) topo))⟩ ∧
    reconcile argoNs parse (.found topo) req
      (applyWrite st (reconcile argoNs parse (.found topo) req st).write) =
      ⟨.inSync, none⟩ := by
  have hr1 : reconcile argoNs parse (.found topo) req st =
      ⟨.created, some (.create (argoKeyOf argoNs req)
        (withClassLabel (mkArgoSecret req.name info) topo))⟩ := by
    simp only [reconcile, h1, h2, h3, h4, h5]
    simp
  refine ⟨hr1, ?_⟩
  rw [hr1]
  have hkey : argoKeyOf argoNs req ≠ req := argoKeyOf_ne_req argoNs req h1
  have hst2req : lookupA
      (insertA st (argoKeyOf argoNs req) (withClassLabel (mkArgoSecret req.name info) topo))
      req = some cs := by
    rw [lookupA_insertA_ne _ _ _ _ hkey]
    exact h2
  have hst2key : lookupA
      (insertA st (argoKeyOf argoNs req) (withClassLabel (mkArgoSecret req.name info) topo))
      (argoKeyOf argoNs req) =
      some (withClassLabel (mkArgoSecret req.name info) topo) :=
    lookupA_insertA_self _ _ _
  have howned : ValidateObjectOwner (withClassLabel (mkArgoSecret req.name info) topo) =
      true := mkArgoSecret_owned req.name info topo
  have hdc : diffChanged (withClassLabel (mkArgoSecret req.name info) topo).data
      (clusterNameOf req.name) info.server info.config = false := by
    rw [diffChanged_false_iff, withClassLabel_data]
    exact ⟨mkArgoSecret_data_name req.name info, mkArgoSecret_data_server req.name info,
      mkArgoSecret_data_config req.name info⟩
  simp only [applyWrite]
  simp only [reconcile, h1, hst2req, h3, h4, hst2key, howned, hdc]
  simp

/-- Witness for C5 at scenario A of the spec: `demo-kubeconfig` against a
store holding only the credential record. -/
theorem claim5_witness :
    reconcile "argocd" demoParse (.found none) demoReq scenarioAStore =
      ⟨.created, some (.create (argoKeyOf "argocd" demoReq)
        (withClassLabel (mkArgoSecret demoReq.name demoInfo) none))⟩ ∧
    reconcile "argocd" demoParse (.found none) demoReq
      (applyWrite scenarioAStore
        (reconcile "argocd" demoParse (.found none) demoReq scenarioAStore).write) =
      ⟨.inSync, none⟩ :=
  claim5_idempotence "argocd" demoParse none demoReq scenarioAStore demoCapi demoInfo
    (by decide) (by decide) (by decide) (by decide) (by decide)

/-- C9.  Frame property of the update path: whatever the inputs, an issued
update targets a key the store already binds, and its payload is that fetched
record with at most the data keys `name`, `server`, `config` replaced — its
type, its whole labels map, and every other data binding are carried over
exactly. -/
theorem claim9_update_frame (argoNs : String)
    (parse : String → Option CapiClusterInfo) (resolver : ResolverResult)
    (req : NamespacedName) (st : Store) (k : NamespacedName) (w : Secret)
    (h : (reconcile argoNs parse resolver req st).write = some (.update k w)) :
    ∃ e, lookupA st k = some e ∧ w.typeTag = e.typeTag ∧ w.labels = e.labels ∧
      (∀ key, key ≠ "name" → key ≠ "server" → key ≠ "config" →
        lookupA w.data key = lookupA e.data key) := by
  unfold reconcile at h
  split at h
  · split at h
    · simp at h
    · split at h
      · simp at h
      · split at h
        · simp at h
        · simp at h
        · split at h
          · simp at h
          · split at h
            · simp at h
            · split at h
              · split at h
                · obtain ⟨hk, hw⟩ : argoKeyOf argoNs req = k ∧ _ = w := by
                    simpa using h
                  rename_i existing heq howned hch
                  refine ⟨existing, ?_, ?_, ?_, ?_⟩
                  · rw [← hk]
                    exact heq
                  · rw [← hw]
                  · rw [← hw]
                  · intro key hn hs hc
                    rw [← hw]
                    exact lookupA_diffData_other _ _ _ _ _ hn hs hc
                · simp at h
              · simp at h
  · simp at h

/-- Witness for C9 at scenario C: the issued update carries the stale record
with its labels, type, and extra data key intact. -/
theorem claim9_witness :
    ∃ e, lookupA scenarioCStore ⟨"argocd", "cluster-demo"⟩ = some e ∧
      (⟨"Opaque", [("capi-to-argocd/owned", "true")],
        [("name", "demo"), ("server", "https://1.2.3.4:6443"), ("config", "CFG"),
         ("extra", "keep")]⟩ : Secret).typeTag = e.typeTag ∧
      (⟨"Opaque", [("capi-to-argocd/owned", "true")],
        [("name", "demo"), ("server", "https://1.2.3.4:6443"), ("config", "CFG"),
         ("extra", "keep")]⟩ : Secret).labels = e.labels ∧
      (∀ key, key ≠ "name" → key ≠ "server" → key ≠ "config" →
        lookupA (⟨"Opaque", [("capi-to-argocd/owned", "true")],
          [("name", "demo"), ("server", "https://1.2.3.4:6443"), ("config", "CFG"),
           ("extra", "keep")]⟩ : Secret).data key = lookupA e.data key) :=
  claim9_update_frame "argocd" demoParse (.found none) demoReq scenarioCStore
    ⟨"argocd", "cluster-demo"⟩
    ⟨"Opaque", [("capi-to-argocd/owned", "true")],
      [("name", "demo"), ("server", "https://1.2.3.4:6443"), ("config", "CFG"),
       ("extra", "keep")]⟩ (by decide)
